import Mathlib

/-!
# Verification model of buildbot's latent worker lifecycle controller

This file embeds `src/master/buildbot/worker/latent.py`
(`AbstractLatentWorker`) as an executable small-step state machine.

The Python code is single-threaded cooperative (Twisted `inlineCallbacks`):
each method runs atomically up to its next `yield`, where it suspends and
other events may run.  We model this directly:

* the synchronous segment of each method is a pure function `Sys → Sys`;
* a suspension (`yield start_instance(...)`, `yield stop_instance(...)`,
  `yield super().attached(...)`) is recorded as a pending `Task`, and the
  corresponding completion event resumes the saved continuation;
* waiting on a `Notifier` is recorded in a waiter list; `notify` resumes
  all waiters;
* externally observable actions (calls to the driver, results delivered
  to waiters, completion of `insubstantiate`'s own deferred, scheduling of
  `_soft_disconnect`, disconnecting an unsolicited transport) are appended
  to an event log.

Methods of the base class `AbstractWorker` (`startMissingTimer`,
`stopMissingTimer`, `attached`, `detached`, `_disconnect`) are not part of
the given source; where the model needs them they are modelled from the
spec and marked as such in their doc comments.
-/

namespace LatentWorker

/-- States of `AbstractLatentWorker` (enum `States`, `latent.py` lines 33-57). -/
inductive WState where
  | notSubstantiated
  | substantiating
  | substantiated
  | insubstantiating
  | insubstantiatingSubstantiating
deriving DecidableEq, Repr

/-- Kind of failure carried by a failed substantiation result.
`failedToSubstantiate` is `LatentWorkerFailedToSubstantiate` (raised when
`start_instance` returns `False`, line 220, or by `failed_to_start`),
`cancelled` is `LatentWorkerSubstantiatiationCancelled`, `timeoutErr` is the
`defer.TimeoutError` of `_missing_timer_fired` (line 278), `startErr` is an
arbitrary exception raised by `start_instance`, and `attachErr` an exception
raised by the base-class `attached` (line 259-260). -/
inductive FailKind where
  | failedToSubstantiate
  | cancelled
  | timeoutErr
  | startErr
  | attachErr
deriving DecidableEq, Repr

/-- Result delivered by the substantiation notifier to its waiters:
`True` on success, a `failure.Failure` otherwise. -/
inductive SubstResult where
  | success
  | failed (k : FailKind)
deriving DecidableEq, Repr

/-- Snapshot of the controller fields observable at the moment an event
fires (used to record the controller state at the completion of an
`insubstantiate` deferred). -/
structure Snap where
  st : WState
  conn : Option Nat
  build : Option Nat
  bwTimer : Option Int
  missingTimer : Bool
deriving DecidableEq, Repr

/-- Observable events appended to the log. -/
inductive Ev where
  | substDelivered (w : Nat) (r : SubstResult)
  | substReturnedTrue
  | substReturnedWaiter (w : Nat)
  | insubstComplete (iid : Nat) (sn : Snap)
  | startInstance (tid : Nat) (b : Option Nat)
  | stopInstance (iid : Nat) (fast : Bool)
  | softDisconnectScheduled
  | botDisconnected (bot : Nat)
  | protocolError
  | insubstantiateTriggered
  | maybeStartBuilds
deriving DecidableEq, Repr

/-- A coroutine suspended at a `yield`:
`substAwaitStart tid b dontWait` is `_substantiate` suspended at
`yield self.start_instance(build)` (line 214) with its locals,
`insubAwaitStop iid notifyCancel` is `insubstantiate` suspended at
`yield d` for `d = self.stop_instance(fast)` (lines 363-365), and
`attachedAwaitBase bot` is `attached` suspended at
`yield super().attached(bot)` (line 258). -/
inductive Task where
  | substAwaitStart (tid : Nat) (b : Option Nat) (dontWait : Bool)
  | insubAwaitStop (iid : Nat) (notifyCancel : Bool)
  | attachedAwaitBase (bot : Nat)
deriving DecidableEq, Repr

/-- The whole controller state: the instance attributes of
`AbstractLatentWorker` (`state`, `conn`, `substantiation_build`,
`build_wait_timer`, `missing_timer`, `build_wait_timeout`, the set of busy
builders abstracted to `building : Bool`), the waiter lists of the two
notifiers, the suspended coroutines, a fresh-id counter and the event log.
`bwTimer = some d` means `build_wait_timer` is armed with delay `d`. -/
structure Sys where
  st : WState
  conn : Option Nat
  build : Option Nat
  bwTimer : Option Int
  missingTimer : Bool
  bwTimeout : Int
  building : Bool
  substWaiters : List Nat
  insubstWaiters : List Nat
  tasks : List Task
  nextId : Nat
  log : List Ev
deriving DecidableEq, Repr

def snap (s : Sys) : Snap :=
  ⟨s.st, s.conn, s.build, s.bwTimer, s.missingTimer⟩

/-- `_clearBuildWaitTimer` (lines 323-327): cancel and drop the timer. -/
def clearBuildWaitTimer (s : Sys) : Sys := {s with bwTimer := none}

/-- `_setBuildWaitTimer` (lines 329-334): clear, then arm a
`build_wait_timeout`-second timer only when the timeout is positive. -/
def setBuildWaitTimer (s : Sys) : Sys :=
  let s1 := clearBuildWaitTimer s
  if s1.bwTimeout ≤ 0 then s1 else {s1 with bwTimer := some s1.bwTimeout}

/-- Modelled from the spec: `AbstractWorker.startMissingTimer` is not in
`src/`; per the spec, `substantiate` arms the missing timer (section 4.4:
"Arm `missing_timer`"). -/
def startMissingTimer (s : Sys) : Sys := {s with missingTimer := true}

/-- Modelled from the spec: `AbstractWorker.stopMissingTimer` is not in
`src/`; it disarms the missing timer. -/
def stopMissingTimer (s : Sys) : Sys := {s with missingTimer := false}

/-- `_fireSubstantiationNotifier` (lines 235-245): with no waiters it only
logs and returns (without clearing `substantiation_build`); otherwise it
sets `substantiation_build = None` and notifies every waiter with the
result. -/
def fireSubstNotifier (s : Sys) (r : SubstResult) : Sys :=
  if s.substWaiters = [] then s
  else
    {s with build := none, substWaiters := [],
            log := s.log ++ s.substWaiters.map (fun w => Ev.substDelivered w r)}

/-- The `if self._insubstantiation_notifier: self._insubstantiation_notifier.notify(True)`
blocks of `insubstantiate` (lines 383-384 and 388-389).  Each waiter is an
`insubstantiate` invocation suspended at `yield self._insubstantiation_notifier.wait()`;
being notified completes its deferred, so an `insubstComplete` event with
the current snapshot is logged for each. -/
def fireInsubstNotifier (s : Sys) : Sys :=
  if s.insubstWaiters = [] then s
  else
    {s with insubstWaiters := [],
            log := s.log ++ s.insubstWaiters.map
              (fun i => Ev.insubstComplete i (snap s))}

/-- `_substantiate` (lines 204-214) up to the suspension at
`yield self.start_instance(build)`: compute `dont_wait_to_attach`, call the
driver, register the suspended continuation. -/
def substantiateInner (s : Sys) (b : Option Nat) : Sys :=
  let dontWait := decide (s.bwTimeout < 0) && s.conn.isSome
  let tid := s.nextId
  {s with nextId := tid + 1,
          tasks := s.tasks ++ [Task.substAwaitStart tid b dontWait],
          log := s.log ++ [Ev.startInstance tid b]}

/-- `insubstantiate(fast, force_substantiation)` (lines 336-363) up to the
suspension at `yield d` (`d = self.stop_instance(fast)`). Entry in
`NOT_SUBSTANTIATED` returns at once (its deferred completes immediately);
entry in `INSUBSTANTIATING` joins the insubstantiation notifier; entry in
`INSUBSTANTIATING_SUBSTANTIATING` moves to `INSUBSTANTIATING`, fires the
substantiation notifier with `Cancelled`, and joins the insubstantiation
notifier.  Otherwise: record `notify_cancel`, set the new state
(`INSUBSTANTIATING_SUBSTANTIATING` iff `force_substantiation`), clear the
build-wait timer, call `stop_instance(fast)` and suspend. -/
def insubstantiateCall (s : Sys) (fast force : Bool) : Sys :=
  let iid := s.nextId
  if s.st = WState.notSubstantiated then
    {s with nextId := iid + 1,
            log := s.log ++ [Ev.insubstComplete iid (snap s)]}
  else if s.st = WState.insubstantiating then
    {s with nextId := iid + 1, insubstWaiters := s.insubstWaiters ++ [iid]}
  else if s.st = WState.insubstantiatingSubstantiating then
    let s1 := {s with nextId := iid + 1, st := WState.insubstantiating}
    let s2 := fireSubstNotifier s1 (SubstResult.failed FailKind.cancelled)
    {s2 with insubstWaiters := s2.insubstWaiters ++ [iid]}
  else
    let nc := s.st = WState.substantiating
    let s1 := {s with nextId := iid + 1,
                      st := if force then WState.insubstantiatingSubstantiating
                            else WState.insubstantiating}
    let s2 := clearBuildWaitTimer s1
    {s2 with tasks := s2.tasks ++ [Task.insubAwaitStop iid (decide nc)],
             log := s2.log ++ [Ev.stopInstance iid fast]}

/-- `_substantiation_failed` (lines 280-295): when still `SUBSTANTIATING`,
clear `substantiation_build` and fire the substantiation notifier with the
failure; then start `insubstantiate()` (its pre-suspension segment runs
synchronously).  The `workerMissing` notification is outside the model. -/
def substantiationFailed (s : Sys) (f : SubstResult) : Sys :=
  let s1 :=
    if s.st = WState.substantiating then
      fireSubstNotifier {s with build := none} f
    else s
  let s2 := {s1 with log := s1.log ++ [Ev.insubstantiateTriggered]}
  insubstantiateCall s2 false false

/-- `substantiate(wfb, build)` (lines 169-202), translated branch by
branch.  Return values are logged: `substReturnedTrue` for the immediate
`defer.succeed(True)`, `substReturnedWaiter w` when the returned deferred
is the notifier waiter `w`. -/
def substantiateFn (s : Sys) (b : Nat) : Sys :=
  if s.st = WState.substantiated ∧ s.conn ≠ none then
    let s1 := setBuildWaitTimer s
    {s1 with log := s1.log ++ [Ev.substReturnedTrue]}
  else if s.st = WState.substantiating ∨
          s.st = WState.insubstantiatingSubstantiating then
    let w := s.nextId
    {s with substWaiters := s.substWaiters ++ [w], nextId := w + 1,
            log := s.log ++ [Ev.substReturnedWaiter w]}
  else
    let s1 := startMissingTimer s
    let s2 := {s1 with build := some b}
    let w := s2.nextId
    let s3 := {s2 with substWaiters := s2.substWaiters ++ [w], nextId := w + 1}
    if s3.st = WState.substantiated ∧ s3.conn = none then
      let s4 := insubstantiateCall s3 false true
      {s4 with log := s4.log ++ [Ev.substReturnedWaiter w]}
    else if s3.st = WState.notSubstantiated then
      let s4 := substantiateInner {s3 with st := WState.substantiating} (some b)
      {s4 with log := s4.log ++ [Ev.substReturnedWaiter w]}
    else
      {s3 with st := WState.insubstantiatingSubstantiating,
               log := s3.log ++ [Ev.substReturnedWaiter w]}

def isSubstTask (tid : Nat) : Task → Bool
  | Task.substAwaitStart tid2 _ _ => tid2 == tid
  | _ => false

def isStopTask (iid : Nat) : Task → Bool
  | Task.insubAwaitStop iid2 _ => iid2 == iid
  | _ => false

def isAttachTask (bot : Nat) : Task → Bool
  | Task.attachedAwaitBase b2 => b2 == bot
  | _ => false

/-- Outcome of the driver's `start_instance` deferred: `ok` is `True`,
`nope` is `False` (the code then raises `LatentWorkerFailedToSubstantiate`,
lines 216-220), `err` is an errback with an arbitrary exception. -/
inductive StartOutcome where
  | ok
  | nope
  | err
deriving DecidableEq, Repr

/-- Resumption of `_substantiate` after `yield self.start_instance(build)`
(lines 214-233).  On `True`: the `dont_wait_to_attach` fast path (lines
222-228).  On `False` or an exception, the `except` block runs:
`stopMissingTimer(); _substantiation_failed(...)` (lines 230-233). -/
def startDoneFn (s : Sys) (tid : Nat) (o : StartOutcome) : Sys :=
  match s.tasks.find? (isSubstTask tid) with
  | some (Task.substAwaitStart _ _ dw) =>
    let s1 := {s with tasks := s.tasks.filter (fun t => !(isSubstTask tid t))}
    match o with
    | StartOutcome.ok =>
      if dw = true ∧ s1.st = WState.substantiating ∧ s1.conn ≠ none then
        fireSubstNotifier {s1 with st := WState.substantiated}
          SubstResult.success
      else s1
    | StartOutcome.nope =>
      substantiationFailed (stopMissingTimer s1)
        (SubstResult.failed FailKind.failedToSubstantiate)
    | StartOutcome.err =>
      substantiationFailed (stopMissingTimer s1)
        (SubstResult.failed FailKind.startErr)
  | _ => s

/-- Resumption of `insubstantiate` after `yield d` (lines 365-392).  A
failure of `stop_instance` is logged and swallowed, so the resumption is
the same in both cases.  Then: fire `Cancelled` if `notify_cancel` and the
substantiation notifier has waiters (lines 376-379); on
`INSUBSTANTIATING_SUBSTANTIATING` move to `SUBSTANTIATING`, notify the
insubstantiation notifier and begin `_substantiate(self.substantiation_build)`
(lines 381-385); on `INSUBSTANTIATING` move to `NOT_SUBSTANTIATED` and
notify (lines 386-389); finally `maybeStartBuildsForWorker` (line 392) and
the generator returns, completing this invocation's own deferred. -/
def stopDoneFn (s : Sys) (iid : Nat) : Sys :=
  match s.tasks.find? (isStopTask iid) with
  | some (Task.insubAwaitStop _ nc) =>
    let s1 := {s with tasks := s.tasks.filter (fun t => !(isStopTask iid t))}
    let s2 :=
      if nc = true ∧ s1.substWaiters ≠ [] then
        fireSubstNotifier s1 (SubstResult.failed FailKind.cancelled)
      else s1
    let s3 :=
      if s2.st = WState.insubstantiatingSubstantiating then
        let sa := fireInsubstNotifier {s2 with st := WState.substantiating}
        substantiateInner sa sa.build
      else if s2.st = WState.insubstantiating then
        fireInsubstNotifier {s2 with st := WState.notSubstantiated}
      else s2
    let s4 := {s3 with log := s3.log ++ [Ev.maybeStartBuilds]}
    {s4 with log := s4.log ++ [Ev.insubstComplete iid (snap s4)]}
  | _ => s

/-- `attached(bot)` (lines 247-255) up to its first suspension.  The guard
branch disconnects the incoming transport (base `_disconnect`, modelled
from the spec as a transport action) and raises, touching no controller
field; otherwise the call suspends at `yield super().attached(bot)`. -/
def attachedFn (s : Sys) (bot : Nat) : Sys :=
  if s.st ≠ WState.substantiating ∧ 0 ≤ s.bwTimeout then
    {s with log := s.log ++ [Ev.botDisconnected bot, Ev.protocolError]}
  else
    {s with tasks := s.tasks ++ [Task.attachedAwaitBase bot]}

/-- Resumption of `attached` after `yield super().attached(bot)` (lines
257-270).  The base-class attach is modelled from the spec: on success it
sets `conn` and stops the missing timer.  On failure the `except` block
calls `_substantiation_failed` (lines 259-261).  On success: move to
`SUBSTANTIATED` only when `SUBSTANTIATING` (lines 268-269) and fire the
substantiation notifier with success (line 270). -/
def baseAttachDoneFn (s : Sys) (bot : Nat) (ok : Bool) : Sys :=
  match s.tasks.find? (isAttachTask bot) with
  | some (Task.attachedAwaitBase _) =>
    let s1 := {s with tasks := s.tasks.filter (fun t => !(isAttachTask bot t))}
    if ok then
      let s2 := stopMissingTimer {s1 with conn := some bot}
      let s3 := if s2.st = WState.substantiating
                then {s2 with st := WState.substantiated} else s2
      fireSubstNotifier s3 SubstResult.success
    else
      substantiationFailed s1 (SubstResult.failed FailKind.attachErr)
  | _ => s

/-- `buildFinished(wfb)` (lines 307-321).  `stillBusy` is the value of
`self.building` after this builder became idle: when no builder is busy,
a zero timeout schedules `_soft_disconnect` on the next reactor tick and
any other timeout goes through `_setBuildWaitTimer`. -/
def buildFinishedFn (s : Sys) (stillBusy : Bool) : Sys :=
  let s1 := {s with building := stillBusy}
  if stillBusy then s1
  else if s1.bwTimeout = 0 then
    {s1 with log := s1.log ++ [Ev.softDisconnectScheduled]}
  else setBuildWaitTimer s1

/-- `_missing_timer_fired` (lines 276-278): disarm the timer and run
`_substantiation_failed(defer.TimeoutError())`.  Fires only while armed. -/
def missingTimerFiredFn (s : Sys) : Sys :=
  if s.missingTimer then
    substantiationFailed {s with missingTimer := false}
      (SubstResult.failed FailKind.timeoutErr)
  else s

/-- External events driving the cooperative scheduler: the request surface
(`substantiate`, `insubstantiate`, `attached`, `detached`, `buildStarted`,
`buildFinished`), driver completions, base-attach completion, and the
missing-timer callback. -/
inductive Act where
  | substantiateCall (b : Nat)
  | insubstantiateExt (fast force : Bool)
  | startDone (tid : Nat) (o : StartOutcome)
  | stopDone (iid : Nat)
  | attachedCall (bot : Nat)
  | baseAttachDone (bot : Nat) (ok : Bool)
  | detachedCall
  | missingTimerFired
  | buildStartedEv
  | buildFinishedEv (stillBusy : Bool)
deriving DecidableEq, Repr

/-- One scheduler step: run the synchronous segment the event triggers.
`detached` is modelled from the spec (base class): it clears `conn` and
causes no state transition. `buildStarted` (lines 303-305) clears the
build-wait timer. -/
def step (s : Sys) (a : Act) : Sys :=
  match a with
  | Act.substantiateCall b => substantiateFn s b
  | Act.insubstantiateExt fast force => insubstantiateCall s fast force
  | Act.startDone tid o => startDoneFn s tid o
  | Act.stopDone iid => stopDoneFn s iid
  | Act.attachedCall bot => attachedFn s bot
  | Act.baseAttachDone bot ok => baseAttachDoneFn s bot ok
  | Act.detachedCall => {s with conn := none}
  | Act.missingTimerFired => missingTimerFiredFn s
  | Act.buildStartedEv => {(clearBuildWaitTimer s) with building := true}
  | Act.buildFinishedEv stillBusy => buildFinishedFn s stillBusy

def run (s : Sys) (acts : List Act) : Sys := acts.foldl step s

/-- Freshly configured controller with the given `build_wait_timeout`:
`state = NOT_SUBSTANTIATED`, no connection, no pending build, no timers,
no waiters, no builds running. -/
def init (t : Int) : Sys :=
  ⟨WState.notSubstantiated, none, none, none, false, t, false, [], [], [], 0, []⟩

/-- The postcondition the spec asserts at the completion of every
`insubstantiate()` deferred: `state = NotSubstantiated ∧ conn = none ∧
pending_build = none ∧ no timers armed`. -/
def insubstPost (sn : Snap) : Prop :=
  sn.st = WState.notSubstantiated ∧ sn.conn = none ∧ sn.build = none ∧
    sn.bwTimer = none ∧ sn.missingTimer = false

/-- Happy-path substantiation (driver start succeeds, worker attaches)
followed by an idle `insubstantiate()` whose `stop_instance` completes,
with no `detached` event in between. -/
def traceC1 : List Act :=
  [Act.substantiateCall 4, Act.startDone 1 StartOutcome.ok,
   Act.attachedCall 9, Act.baseAttachDone 9 true,
   Act.insubstantiateExt false false, Act.stopDone 2]

/-- Quiescent `SUBSTANTIATED` controller: connection `c` up, no pending
build, missing timer off, build-wait timer `bw`, timeout `t`, no waiters,
no suspended coroutines, next fresh id `n`. -/
def idleSubstantiated (c : Nat) (bw : Option Int) (t : Int) (n : Nat) : Sys :=
  ⟨WState.substantiated, some c, none, bw, false, t, false, [], [], [], n, []⟩

/-- Cancel-then-requeue interleaving: `substantiate(1)`, then
`insubstantiate()` while `SUBSTANTIATING`, then `substantiate(2)` while
`INSUBSTANTIATING` (queued as `INSUBSTANTIATING_SUBSTANTIATING`), then
`stop_instance` completes. -/
def traceC2 : List Act :=
  [Act.substantiateCall 1, Act.insubstantiateExt false false,
   Act.substantiateCall 2, Act.stopDone 2]

/-- Happy-path substantiation followed by a completed insubstantiation. -/
def traceC3 : List Act :=
  [Act.substantiateCall 1, Act.startDone 1 StartOutcome.ok,
   Act.attachedCall 7, Act.baseAttachDone 7 true,
   Act.insubstantiateExt false false, Act.stopDone 2]

/-- A substantiated, connected controller used to witness the unsolicited
`attached` guard. -/
def attachedGuardState : Sys :=
  ⟨WState.substantiated, some 3, none, none, false, 600, false, [], [], [], 7, []⟩

/-- `substantiate(5)`, then `insubstantiate()` while `SUBSTANTIATING`, then
the driver's `start_instance` deferred resolves to `False`, then
`stop_instance` completes. -/
def traceC5 : List Act :=
  [Act.substantiateCall 5, Act.insubstantiateExt false false,
   Act.startDone 1 StartOutcome.nope, Act.stopDone 2]

/-- A `SUBSTANTIATING` controller with one substantiation waiter and the
`_substantiate` coroutine suspended at `start_instance`. -/
def startFailState : Sys :=
  ⟨WState.substantiating, none, some 5, none, true, 600, false, [7], [],
   [Task.substAwaitStart 1 (some 5) false], 8, []⟩

/-- Happy-path substantiation under `build_wait_timeout = -1`, reaching
`SUBSTANTIATED` with a live connection. -/
def traceC6 : List Act :=
  [Act.substantiateCall 1, Act.startDone 1 StartOutcome.ok,
   Act.attachedCall 3, Act.baseAttachDone 3 true]

/-- A substantiated controller with a build just running, used to witness
the `buildFinished` policy. -/
def buildDoneState : Sys :=
  ⟨WState.substantiated, some 2, none, none, false, 600, true, [], [], [], 4, []⟩

/-- A `SUBSTANTIATING` controller used to witness the frame condition of
`substantiate` in that state. -/
def midSubstState : Sys :=
  ⟨WState.substantiating, none, some 6, none, true, 600, false, [0], [],
   [Task.substAwaitStart 1 (some 6) false], 2, []⟩

/-- A controller with one substantiation waiter, used to witness the
notifier-firing discipline. -/
def oneWaiterState : Sys :=
  ⟨WState.substantiating, none, some 8, none, true, 600, false, [5], [], [], 6, []⟩

/-- `string.ascii_letters` (line 139): the lowercase then uppercase ASCII
letters. -/
def asciiLetters : List Char :=
  "abcdefghijklmnopqrstuvwxyzABCDEFGHIJKLMNOPQRSTUVWXYZ".toList

/-- `string.digits`. -/
def asciiDigits : List Char := "0123456789".toList

/-- The alphabet `random.choice` draws from in `getRandomPass` (line 139):
`string.ascii_letters + string.digits`. -/
def passAlphabet : List Char := asciiLetters ++ asciiDigits

/-- Character of the alphabet at a given index.  The alphabet has 62
characters. -/
def passwordChar (i : Fin 62) : Char :=
  passAlphabet.get (Fin.cast (by decide) i)

/-- `getRandomPass` (lines 132-140): twenty independent `random.choice`
draws from the 62-character alphabet, joined into a string.  `choice`
gives the index drawn by `random.choice` at each of the 20 positions
(`random.choice` picks an index uniformly). -/
def getRandomPass (choice : Fin 20 → Fin 62) : String :=
  String.mk ((List.finRange 20).map (fun i => passwordChar (choice i)))

lemma fireSubstNotifier_missingTimer (s : Sys) (r : SubstResult) :
    (fireSubstNotifier s r).missingTimer = s.missingTimer := by
  unfold fireSubstNotifier
  split <;> rfl

lemma fireSubstNotifier_build_none (s : Sys) (r : SubstResult)
    (h : s.build = none) : (fireSubstNotifier s r).build = none := by
  unfold fireSubstNotifier
  split
  · exact h
  · rfl

lemma fireSubstNotifier_log_mono (s : Sys) (r : SubstResult) (e : Ev)
    (h : e ∈ s.log) : e ∈ (fireSubstNotifier s r).log := by
  unfold fireSubstNotifier
  split
  · exact h
  · exact List.mem_append_left _ h

lemma fireSubstNotifier_delivers (s : Sys) (r : SubstResult) (w : Nat)
    (h : w ∈ s.substWaiters) :
    Ev.substDelivered w r ∈ (fireSubstNotifier s r).log := by
  unfold fireSubstNotifier
  rw [if_neg (List.ne_nil_of_mem h)]
  exact List.mem_append_right _ (List.mem_map_of_mem _ h)

lemma insubstantiateCall_missingTimer (s : Sys) (fast force : Bool) :
    (insubstantiateCall s fast force).missingTimer = s.missingTimer := by
  unfold insubstantiateCall
  split_ifs <;>
    simp [fireSubstNotifier_missingTimer, clearBuildWaitTimer]

lemma insubstantiateCall_build_none (s : Sys) (fast force : Bool)
    (h : s.build = none) : (insubstantiateCall s fast force).build = none := by
  unfold insubstantiateCall
  split_ifs <;>
    simp [fireSubstNotifier_build_none, clearBuildWaitTimer, h]

lemma insubstantiateCall_log_mono (s : Sys) (fast force : Bool) (e : Ev)
    (h : e ∈ s.log) : e ∈ (insubstantiateCall s fast force).log := by
  unfold insubstantiateCall
  split_ifs
  · exact List.mem_append_left _ h
  · exact h
  · exact fireSubstNotifier_log_mono _ _ _ h
  · exact List.mem_append_left _ h
  · exact List.mem_append_left _ h

lemma substantiationFailed_missingTimer (s : Sys) (f : SubstResult) :
    (substantiationFailed s f).missingTimer = s.missingTimer := by
  unfold substantiationFailed
  rw [insubstantiateCall_missingTimer]
  split
  · exact fireSubstNotifier_missingTimer _ _
  · rfl

lemma substantiationFailed_triggered (s : Sys) (f : SubstResult) :
    Ev.insubstantiateTriggered ∈ (substantiationFailed s f).log := by
  unfold substantiationFailed
  apply insubstantiateCall_log_mono
  exact List.mem_append_right _ (List.mem_singleton.mpr rfl)

lemma substantiationFailed_build_none (s : Sys) (f : SubstResult)
    (h : s.st = WState.substantiating) :
    (substantiationFailed s f).build = none := by
  unfold substantiationFailed
  rw [if_pos h]
  exact insubstantiateCall_build_none _ _ _
    (fireSubstNotifier_build_none _ _ rfl)

lemma substantiationFailed_delivers (s : Sys) (f : SubstResult) (w : Nat)
    (h : s.st = WState.substantiating) (hw : w ∈ s.substWaiters) :
    Ev.substDelivered w f ∈ (substantiationFailed s f).log := by
  unfold substantiationFailed
  rw [if_pos h]
  apply insubstantiateCall_log_mono
  apply List.mem_append_left
  exact fireSubstNotifier_delivers _ _ _ hw

/-- Claim C1, counterexample: in the reachable trace `traceC1` (happy-path
substantiation, then `insubstantiate()` running to completion with no
`detached` event), the completion of `insubstantiate`'s deferred observes
`conn = some 9 ≠ none`, because `insubstantiate` never clears `conn` — so
the claimed postcondition `state = NotSubstantiated ∧ conn = none ∧
pending_build = none ∧ no timers armed` does not hold at that moment. -/
theorem insubstantiate_post_cex :
    Ev.insubstComplete 2 ⟨WState.notSubstantiated, some 9, none, none, false⟩
        ∈ (run (init 600) traceC1).log ∧
      ¬ insubstPost ⟨WState.notSubstantiated, some 9, none, none, false⟩ := by
  refine ⟨by decide, ?_⟩
  intro h
  obtain ⟨-, h2, -⟩ := h
  cases h2

/-- Claim C1 (amended): when `insubstantiate()` is invoked on a quiescent
`Substantiated` controller (no pending build, missing timer off, no
waiters, no suspended coroutines, no `force_substantiation`) and
`stop_instance` then completes with no interleaving events, at the moment
its deferred completes the controller is `NotSubstantiated` with
`pending_build = none` and no timers armed; `conn` is left exactly as it
was — `insubstantiate` does not clear it. -/
theorem insubstantiate_from_idle_substantiated
    (c : Nat) (bw : Option Int) (t : Int) (n : Nat) :
    run (idleSubstantiated c bw t n)
        [Act.insubstantiateExt false false, Act.stopDone n] =
      ⟨WState.notSubstantiated, some c, none, none, false, t, false,
       [], [], [], n + 1,
       [Ev.stopInstance n false, Ev.maybeStartBuilds,
        Ev.insubstComplete n
          ⟨WState.notSubstantiated, some c, none, none, false⟩]⟩ := by
  simp [run, idleSubstantiated, step, insubstantiateCall, stopDoneFn,
    clearBuildWaitTimer, fireSubstNotifier, fireInsubstNotifier, snap,
    isStopTask, List.find?, List.filter]

/-- Claim C2: evaluation of the code on the failing interleaving.  After
`substantiate(1)`, an `insubstantiate()` in flight, a re-queued
`substantiate(2)` and the completion of `stop_instance`, the controller is
in `SUBSTANTIATING` with `substantiation_build = none`: the resume path
fired `Cancelled` at the re-queued caller's waiter (id 3), clearing
`substantiation_build`, and then started `_substantiate(None)` (the
`startInstance 4 none` call to the driver). -/
theorem requeued_substantiation_loses_build :
    (run (init 600) traceC2).st = WState.substantiating ∧
      (run (init 600) traceC2).build = none ∧
      Ev.substDelivered 3 (SubstResult.failed FailKind.cancelled)
        ∈ (run (init 600) traceC2).log ∧
      Ev.startInstance 4 none ∈ (run (init 600) traceC2).log := by
  decide

/-- Claim C3: from `NotSubstantiated` with no busy builders,
`substantiate` whose substantiation completes successfully (the waiter is
delivered `True`), followed by `insubstantiate()` running to completion,
returns the controller to `NotSubstantiated`. -/
theorem substantiate_insubstantiate_roundtrip :
    Ev.substDelivered 0 SubstResult.success ∈ (run (init 600) traceC3).log ∧
      (run (init 600) traceC3).st = WState.notSubstantiated := by
  decide

/-- Claim C4: whenever `attached(bot)` runs while `state ≠ Substantiating`
and `build_wait_timeout ≥ 0`, the incoming transport is disconnected, a
protocol-violation error is raised, and every controller field — in
particular `state` — is left unchanged (only the two transport events are
logged). -/
theorem unsolicited_attached_rejected (s : Sys) (bot : Nat)
    (h1 : s.st ≠ WState.substantiating) (h2 : 0 ≤ s.bwTimeout) :
    step s (Act.attachedCall bot) =
      {s with log := s.log ++ [Ev.botDisconnected bot, Ev.protocolError]} := by
  simp [step, attachedFn, h1, h2]

/-- Claim C4, witness: instantiation at a substantiated controller with
`build_wait_timeout = 600`. -/
theorem unsolicited_attached_rejected_witness :
    step attachedGuardState (Act.attachedCall 5) =
      ⟨WState.substantiated, some 3, none, none, false, 600, false,
       [], [], [], 7, [Ev.botDisconnected 5, Ev.protocolError]⟩ :=
  unsolicited_attached_rejected attachedGuardState 5 (by decide) (by decide)

/-- Claim C5, counterexample: in `traceC5`, `start_instance` resolves to
`False` during a run of `_substantiate` (after an `insubstantiate` has
moved the state to `INSUBSTANTIATING`), and the waiter (id 0) of the
substantiation notifier never receives a `FailedToSubstantiate` failure —
it receives `Cancelled` instead — even though the missing timer is
cancelled and `insubstantiate` is triggered. -/
theorem start_failure_kind_cex :
    Ev.substDelivered 0 (SubstResult.failed FailKind.failedToSubstantiate)
        ∉ (run (init 600) traceC5).log ∧
      Ev.substDelivered 0 (SubstResult.failed FailKind.cancelled)
        ∈ (run (init 600) traceC5).log ∧
      (run (init 600) traceC5).missingTimer = false ∧
      Ev.insubstantiateTriggered ∈ (run (init 600) traceC5).log := by
  decide

/-- Claim C5 (amended): for every run of `_substantiate(build)` in which
`start_instance` returns `False`, the missing timer is cancelled and
`insubstantiate()` is triggered; and when the controller is still in
`Substantiating` at that moment, `substantiation_build` is cleared and
every waiter of the substantiation notifier receives the
`FailedToSubstantiate` failure.  (When the state has already left
`Substantiating` — e.g. an `insubstantiate` superseded the substantiation —
no `FailedToSubstantiate` result is delivered; and when `start_instance`
raises some other exception, the delivered failure carries that
exception.) -/
theorem start_instance_failure_cleanup (s : Sys) (tid : Nat) (b : Option Nat)
    (dw : Bool) (h : s.tasks = [Task.substAwaitStart tid b dw]) :
    (step s (Act.startDone tid StartOutcome.nope)).missingTimer = false ∧
      Ev.insubstantiateTriggered
        ∈ (step s (Act.startDone tid StartOutcome.nope)).log ∧
      (s.st = WState.substantiating →
        (step s (Act.startDone tid StartOutcome.nope)).build = none ∧
        ∀ w ∈ s.substWaiters,
          Ev.substDelivered w (SubstResult.failed FailKind.failedToSubstantiate)
            ∈ (step s (Act.startDone tid StartOutcome.nope)).log) := by
  have e : step s (Act.startDone tid StartOutcome.nope) =
      substantiationFailed (stopMissingTimer {s with tasks := []})
        (SubstResult.failed FailKind.failedToSubstantiate) := by
    simp [step, startDoneFn, h, isSubstTask, List.find?, List.filter,
      stopMissingTimer]
  rw [e]
  refine ⟨?_, substantiationFailed_triggered _ _, ?_⟩
  · rw [substantiationFailed_missingTimer]
    rfl
  · intro hst
    have hst2 : (stopMissingTimer {s with tasks := ([] : List Task)}).st =
        WState.substantiating := hst
    refine ⟨substantiationFailed_build_none _ _ hst2, ?_⟩
    intro w hw
    exact substantiationFailed_delivers _ _ _ hst2 hw

/-- Claim C5, witness: a `SUBSTANTIATING` controller with waiter 7 whose
`start_instance` resolves to `False`. -/
theorem start_instance_failure_cleanup_witness :
    (step startFailState (Act.startDone 1 StartOutcome.nope)).missingTimer
        = false ∧
      Ev.substDelivered 7 (SubstResult.failed FailKind.failedToSubstantiate)
        ∈ (step startFailState (Act.startDone 1 StartOutcome.nope)).log := by
  have h := start_instance_failure_cleanup startFailState 1 (some 5) false rfl
  exact ⟨h.1, (h.2.2 rfl).2 7 (by decide)⟩

/-- Claim C6, counterexample: reach `Substantiated` with a live connection
under `build_wait_timeout = -1` (the happy path never triggers the
unsolicited-connection guard when the timeout is negative), then call
`substantiate` again.  It returns `True` immediately and leaves the state
`Substantiated`, but the idle timer is NOT armed: `_setBuildWaitTimer`
returns without arming whenever `build_wait_timeout ≤ 0`. -/
theorem substantiate_when_connected_cex :
    (step (run (init (-1)) traceC6) (Act.substantiateCall 2)).bwTimer = none ∧
      Ev.substReturnedTrue
        ∈ (step (run (init (-1)) traceC6) (Act.substantiateCall 2)).log ∧
      (step (run (init (-1)) traceC6) (Act.substantiateCall 2)).st =
        WState.substantiated := by
  decide

/-- Claim C6 (amended): whenever `substantiate(wfb, build)` is called with
`state = Substantiated` and `conn ≠ none`, it returns immediately with
`True` and leaves every controller field unchanged except the build-wait
timer, which is armed for `build_wait_timeout` seconds when
`build_wait_timeout > 0` and cleared (not armed) when
`build_wait_timeout ≤ 0`. -/
theorem substantiate_when_connected (s : Sys) (b : Nat)
    (h1 : s.st = WState.substantiated) (h2 : s.conn ≠ none) :
    step s (Act.substantiateCall b) =
      {s with bwTimer := if s.bwTimeout ≤ 0 then none else some s.bwTimeout,
              log := s.log ++ [Ev.substReturnedTrue]} := by
  by_cases h3 : s.bwTimeout ≤ 0 <;>
    simp [step, substantiateFn, h1, h2, setBuildWaitTimer,
      clearBuildWaitTimer, h3]

/-- Claim C6, witness: instantiation at a connected substantiated
controller with `build_wait_timeout = 600`, where the timer is armed. -/
theorem substantiate_when_connected_witness :
    step (idleSubstantiated 3 none 600 0) (Act.substantiateCall 9) =
      ⟨WState.substantiated, some 3, none, some 600, false, 600, false,
       [], [], [], 0, [Ev.substReturnedTrue]⟩ := by
  have h := substantiate_when_connected (idleSubstantiated 3 none 600 0) 9
    rfl (by decide)
  simpa [idleSubstantiated] using h

/-- Claim C7: the `buildFinished` idle policy.  When some builder is still
busy, nothing is armed or scheduled; otherwise a zero `build_wait_timeout`
schedules `_soft_disconnect` on the next reactor tick, a positive one arms
the build-wait timer for `build_wait_timeout` seconds, and a negative one
arms and schedules nothing, leaving the worker running. -/
theorem buildFinished_policy (s : Sys) :
    (step s (Act.buildFinishedEv true) = {s with building := true}) ∧
      (s.bwTimeout = 0 →
        step s (Act.buildFinishedEv false) =
          {s with building := false,
                  log := s.log ++ [Ev.softDisconnectScheduled]}) ∧
      (0 < s.bwTimeout →
        step s (Act.buildFinishedEv false) =
          {s with building := false, bwTimer := some s.bwTimeout}) ∧
      (s.bwTimeout < 0 →
        step s (Act.buildFinishedEv false) =
          {s with building := false, bwTimer := none}) := by
  refine ⟨?_, ?_, ?_, ?_⟩
  · simp [step, buildFinishedFn]
  · intro h
    simp [step, buildFinishedFn, h]
  · intro h
    have h1 : ¬ s.bwTimeout = 0 := by omega
    have h2 : ¬ s.bwTimeout ≤ 0 := by omega
    simp [step, buildFinishedFn, setBuildWaitTimer, clearBuildWaitTimer,
      h1, h2]
  · intro h
    have h1 : ¬ s.bwTimeout = 0 := by omega
    have h2 : s.bwTimeout ≤ 0 := by omega
    simp [step, buildFinishedFn, setBuildWaitTimer, clearBuildWaitTimer,
      h1, h2]

/-- Claim C7, witness: the last build finishing with
`build_wait_timeout = 600` arms the build-wait timer for 600 seconds. -/
theorem buildFinished_policy_witness :
    (0 : Int) < 600 ∧
      step buildDoneState (Act.buildFinishedEv false) =
        ⟨WState.substantiated, some 2, none, some 600, false, 600, false,
         [], [], [], 4, []⟩ := by
  refine ⟨by decide, ?_⟩
  have h := (buildFinished_policy buildDoneState).2.2.1 (by decide)
  simpa [buildDoneState] using h

/-- Claim C8: every call to `getRandomPass` returns a string of exactly 20
characters, each in `[A-Za-z0-9]`; and the index-to-character map over the
62-character alphabet has no duplicates, so with `random.choice` drawing
the index uniformly each character of the set is picked with equal
probability `1/62`. -/
theorem getRandomPass_spec (choice : Fin 20 → Fin 62) :
    (getRandomPass choice).length = 20 ∧
      (∀ c ∈ (getRandomPass choice).toList, c.isAlphanum = true) ∧
      ((List.finRange 62).map passwordChar).Nodup := by
  refine ⟨?_, ?_, by decide⟩
  · simp [getRandomPass, String.length]
  · intro c hc
    have hall : ∀ k : Fin 62, (passwordChar k).isAlphanum = true := by decide
    simp only [getRandomPass, String.toList, List.mem_map] at hc
    obtain ⟨i, -, rfl⟩ := hc
    exact hall _

/-- Claim C8, witness: the constant draw of index 0 yields a 20-character
password whose first character `a` is alphanumeric. -/
theorem getRandomPass_spec_witness :
    (getRandomPass (fun _ => (0 : Fin 62))).length = 20 ∧
      Char.isAlphanum 'a' = true := by
  have h := getRandomPass_spec (fun _ => (0 : Fin 62))
  exact ⟨h.1, h.2.1 'a' (by decide)⟩

/-- Claim C9: a `substantiate` call arriving in `Substantiating` or
`InsubstantiatingSubstantiating` only registers and returns a fresh waiter
on the substantiation notifier; `substantiation_build` keeps its previous
value (the new `build` argument is discarded), the missing timer is not
re-armed, and the state — like every other field — is unchanged. -/
theorem substantiate_while_inflight_frame (s : Sys) (b : Nat)
    (h : s.st = WState.substantiating ∨
      s.st = WState.insubstantiatingSubstantiating) :
    step s (Act.substantiateCall b) =
      {s with substWaiters := s.substWaiters ++ [s.nextId],
              nextId := s.nextId + 1,
              log := s.log ++ [Ev.substReturnedWaiter s.nextId]} := by
  rcases h with h | h <;> simp [step, substantiateFn, h]

/-- Claim C9, witness: instantiation at a mid-substantiation controller;
the pending build `some 6` survives and only waiter 2 is added. -/
theorem substantiate_while_inflight_frame_witness :
    step midSubstState (Act.substantiateCall 9) =
      ⟨WState.substantiating, none, some 6, none, true, 600, false,
       [0, 2], [], [Task.substAwaitStart 1 (some 6) false], 3,
       [Ev.substReturnedWaiter 2]⟩ := by
  have h := substantiate_while_inflight_frame midSubstState 9 (Or.inl rfl)
  simpa [midSubstState] using h

/-- Claim C10: whenever the substantiation notifier is fired with at least
one waiter — with success, a `FailedToSubstantiate` failure, or a
`Cancelled` failure alike — `substantiation_build` is set to `none` before
the result is delivered, every waiter receives the result, and the waiter
list empties; so immediately after any substantiation outcome is delivered
to waiters, `pending_build = none`.  (With zero waiters nothing is
delivered and the call is a no-op.) -/
theorem fireSubstNotifier_clears_build (s : Sys) (r : SubstResult)
    (h : s.substWaiters ≠ []) :
    (fireSubstNotifier s r).build = none ∧
      (fireSubstNotifier s r).substWaiters = [] ∧
      ∀ w ∈ s.substWaiters,
        Ev.substDelivered w r ∈ (fireSubstNotifier s r).log := by
  unfold fireSubstNotifier
  rw [if_neg h]
  refine ⟨rfl, rfl, ?_⟩
  intro w hw
  exact List.mem_append_right _ (List.mem_map_of_mem _ hw)

/-- Claim C10, witness: firing the notifier of a controller with one
waiter clears the pending build and delivers the result to that waiter. -/
theorem fireSubstNotifier_clears_build_witness :
    (fireSubstNotifier oneWaiterState SubstResult.success).build = none ∧
      Ev.substDelivered 5 SubstResult.success
        ∈ (fireSubstNotifier oneWaiterState SubstResult.success).log := by
  have h := fireSubstNotifier_clears_build oneWaiterState
    SubstResult.success (by decide)
  exact ⟨h.1, h.2.2 5 (by decide)⟩

end LatentWorker
